import Mathlib

/-!
Verification of the finance-models repository: the rate-limited market-data
client (`api_handlers/polygon_client.py`), the technical-indicator pipeline
(`data/technical_indicators.py`), and the analysis orchestrator
(`api_handlers/option.py`), embedded shallowly in Lean.

Numeric convention: pandas/NumPy float columns are modelled by the type `PF`
below, with `PF.nan` for NaN, `PF.inf`/`PF.ninf` for the infinities produced
by float division, and `PF.val q` for an ordinary (rational) value.  IEEE
comparison semantics (NaN incomparable, infinities ordered) are reproduced by
the `pf*` operations.
-/

/-- A pandas float value: NaN, +inf, -inf, or a finite (rational) number. -/
inductive PF where
  | nan : PF
  | inf : PF
  | ninf : PF
  | val : ℚ → PF
deriving DecidableEq, Repr

/-- IEEE negation. -/
def pfNeg : PF → PF
  | .nan => .nan
  | .inf => .ninf
  | .ninf => .inf
  | .val q => .val (-q)

/-- IEEE addition (NaN propagates; inf + (-inf) = NaN). -/
def pfAdd : PF → PF → PF
  | .nan, _ => .nan
  | _, .nan => .nan
  | .inf, .ninf => .nan
  | .inf, _ => .inf
  | .ninf, .inf => .nan
  | .ninf, _ => .ninf
  | .val _, .inf => .inf
  | .val _, .ninf => .ninf
  | .val a, .val b => .val (a + b)

/-- IEEE subtraction. -/
def pfSub (a b : PF) : PF := pfAdd a (pfNeg b)

/-- IEEE division as performed by pandas column arithmetic: x/0 is ±inf for
nonzero x and NaN for 0/0. -/
def pfDiv : PF → PF → PF
  | .nan, _ => .nan
  | _, .nan => .nan
  | .inf, .inf => .nan
  | .inf, .ninf => .nan
  | .ninf, .inf => .nan
  | .ninf, .ninf => .nan
  | .inf, .val b => if b < 0 then .ninf else .inf
  | .ninf, .val b => if b < 0 then .inf else .ninf
  | .val _, .inf => .val 0
  | .val _, .ninf => .val 0
  | .val a, .val b =>
      if b = 0 then (if a = 0 then .nan else if 0 < a then .inf else .ninf)
      else .val (a / b)

/-- IEEE strict less-than as a Bool (false whenever either side is NaN). -/
def pfLt : PF → PF → Bool
  | .nan, _ => false
  | _, .nan => false
  | .inf, _ => false
  | .ninf, .ninf => false
  | .ninf, _ => true
  | .val _, .inf => true
  | .val _, .ninf => false
  | .val a, .val b => decide (a < b)

/-- IEEE absolute value. -/
def pfAbs : PF → PF
  | .nan => .nan
  | .inf => .inf
  | .ninf => .inf
  | .val q => .val |q|

/-- Multiplication by a rational constant (0 * inf = NaN as in IEEE). -/
def pfScale (c : ℚ) : PF → PF
  | .nan => .nan
  | .inf => if 0 < c then .inf else if c < 0 then .ninf else .nan
  | .ninf => if 0 < c then .ninf else if c < 0 then .inf else .nan
  | .val q => .val (c * q)

/-- Is this a finite value? -/
def PF.isVal : PF → Bool
  | .val _ => true
  | _ => false

/-- The finite value, if any. -/
def PF.toQ : PF → Option ℚ
  | .val q => some q
  | _ => none

/-!
### Column operations (pandas Series operations used by the indicator code)

DataFrame columns are Lean lists; positional indexing mirrors `.iloc`.
-/

/-- `series.diff()`: entry 0 is NaN, entry i (i > 0) is `x[i] - x[i-1]`. -/
def diffCol (xs : List ℚ) : List PF :=
  List.ofFn fun i : Fin xs.length =>
    if h : i.val = 0 then PF.nan
    else PF.val (xs.get i - xs.get ⟨i.val - 1, by omega⟩)

/-- `gains = delta.copy(); gains[gains < 0] = 0`: negative entries become 0,
NaN entries stay NaN (a NaN compares false against 0). -/
def gainsCol (ds : List PF) : List PF :=
  ds.map fun d => match d with
    | .val q => .val (max q 0)
    | x => x

/-- `losses = delta.copy(); losses[losses > 0] = 0; losses = abs(losses)`:
positive entries become 0, then absolute value; NaN stays NaN. -/
def lossesCol (ds : List PF) : List PF :=
  ds.map fun d => match d with
    | .val q => .val (max (-q) 0)
    | x => x

/-- The finite value, with 0 for the non-finite cases (only ever used on
windows checked to be all-finite). -/
def PF.valOr0 : PF → ℚ
  | .val q => q
  | _ => 0

/-- Mean of a window that contains only finite values; NaN otherwise
(pandas `rolling(w).mean()` yields NaN whenever the window has a NaN,
since `min_periods` defaults to the window size). -/
def pfWindowMean (w : ℕ) (win : List PF) : PF :=
  if win.all PF.isVal then
    PF.val ((win.map PF.valOr0).sum / w)
  else PF.nan

/-- `series.rolling(window=w).mean()`: entry i is NaN while fewer than `w`
entries are available, else the mean of entries `i-w+1 .. i` (NaN if any of
them is NaN). -/
def rollingMean (w : ℕ) (xs : List PF) : List PF :=
  List.ofFn fun i : Fin xs.length =>
    if h : i.val + 1 < w then PF.nan
    else pfWindowMean w
      (List.ofFn fun k : Fin w => xs.get ⟨i.val + 1 - w + k.val, by omega⟩)

/-- `series.pct_change()`: entry 0 is NaN, entry i is `x[i]/x[i-1] - 1`
with float-division semantics when the previous price is 0. -/
def pctChange (xs : List ℚ) : List PF :=
  List.ofFn fun i : Fin xs.length =>
    if h : i.val = 0 then PF.nan
    else pfSub (pfDiv (PF.val (xs.get i)) (PF.val (xs.get ⟨i.val - 1, by omega⟩)))
               (PF.val 1)

/-- `series.std()` squared (pandas default: skip NaN, sample variance with
`ddof = 1`, so NaN when fewer than two non-NaN entries).  The result is kept
squared so that it stays rational; a non-finite entry makes it NaN, as the
float computation produces NaN whenever an infinity enters the sum. -/
def sampleVarPF (xs : List PF) : PF :=
  if (xs.any fun x => x = PF.inf || x = PF.ninf) then PF.nan
  else
    let vs := xs.filterMap PF.toQ
    if vs.length ≤ 1 then PF.nan
    else
      let m := vs.sum / vs.length
      PF.val ((vs.map fun v => (v - m) ^ 2).sum / (vs.length - 1))

/-- Per-bar trading signal derived from RSI. -/
inductive Signal where
  | overbought : Signal
  | oversold : Signal
  | neutral : Signal
deriving DecidableEq, Repr

/-- A DataFrame as used by the indicator pipeline: a `close` price column plus
the derived columns, each absent (`none`) until some function adds it. -/
structure DF where
  close : List ℚ
  rsi : Option (List PF) := none
  signal : Option (List Signal) := none
  price_delta : Option (List ℚ) := none
  daily_return : Option (List PF) := none
deriving DecidableEq, Repr

/-- The signal column written by `calculate_rsi` (and again by the
orchestrator's augmentation step): start from `neutral`, set
`overbought` where `rsi > 70`, `oversold` where `rsi < 30`; a NaN RSI
compares false both times and keeps `neutral`. -/
def signalCol (rsi : List PF) : List Signal :=
  rsi.map fun r =>
    if pfLt (PF.val 70) r then Signal.overbought
    else if pfLt r (PF.val 30) then Signal.oversold
    else Signal.neutral

/-- `calculate_rsi` (src/data/technical_indicators.py, lines 42-74).
The Python function first does `df = df.copy()`, computes
delta/gains/losses, the two `rolling(period).mean()` columns, `rs`, `rsi`,
and the signal column, and returns the copy.  The result is the pair
(returned frame, state of the caller's argument after the call); because of
the copy the caller's frame is returned unchanged.  `price_column` is fixed
at its default `'close'`. -/
def calculate_rsi (df : DF) (period : ℕ) : DF × DF :=
  let delta := diffCol df.close
  let gains := gainsCol delta
  let losses := lossesCol delta
  let avg_gains := rollingMean period gains
  let avg_losses := rollingMean period losses
  let rs := List.zipWith pfDiv avg_gains avg_losses
  let rsi := rs.map fun r => pfSub (PF.val 100) (pfDiv (PF.val 100) (pfAdd (PF.val 1) r))
  ({ df with rsi := some rsi, signal := some (signalCol rsi) }, df)

/-- `calculate_realized_volatility` (src/data/technical_indicators.py,
lines 230-281), with the returned volatility represented by its square so
that it stays rational (the Python function returns
`std` or `std * sqrt(252)`; squaring is injective on these non-negative
values, so every equality and definedness statement below transfers).
The Python body reassigns `window = len(df)` when the frame is shorter than
`window`, but that local is never used afterwards: the standard deviation is
taken over the `daily_return` column of the WHOLE frame.  `daily_return` is
written into the caller's frame itself when absent (there is no `.copy()`),
so the second component — the state of the caller's argument after the
call — gains that column. -/
def calculate_realized_volatility_sq (df : DF) (window : ℕ) (annualize : Bool) :
    PF × DF :=
  -- `if len(df) < window: window = len(df)` only logs; `window` is dead below.
  let dr := df.daily_return.getD (pctChange df.close)
  let std_sq := sampleVarPF dr
  let result := if annualize then pfScale 252 std_sq else std_sq
  (result, { df with daily_return := some dr })

/-!
### Divergence, volatility-skew, and VIX reports
-/

/-- `analyze_rsi_divergence`'s result dictionary.  `option_rsi`, `stock_rsi`
and `rsi_difference` are `none` exactly when the Python dict holds `None`
(the error path); on the normal path they hold a float, possibly NaN. -/
structure DivReport where
  option_rsi : Option PF
  stock_rsi : Option PF
  rsi_difference : Option PF
  divergence_type : String
  interpretation : String
  buying_strategies : List String
  selling_strategies : List String
deriving DecidableEq, Repr

/-- The fixed bearish report (static text bank of `analyze_rsi_divergence`). -/
def bearishDivReport (o s : PF) : DivReport where
  option_rsi := some o
  stock_rsi := some s
  rsi_difference := some (pfSub o s)
  divergence_type := "bearish"
  interpretation := "Bearish divergence: Options traders are more bullish than stock traders, which may indicate overoptimism in options market despite stock weakness"
  buying_strategies := ["Buy puts if you believe the stock will continue to fall"]
  selling_strategies := ["Sell calls if you believe the stock will remain below the strike price",
                         "Write cash-secured puts if you want to potentially buy the stock at a lower price"]

/-- The fixed bullish report. -/
def bullishDivReport (o s : PF) : DivReport where
  option_rsi := some o
  stock_rsi := some s
  rsi_difference := some (pfSub o s)
  divergence_type := "bullish"
  interpretation := "Bullish divergence: Options traders are more bearish than stock traders, which may indicate undervaluation of options relative to stock strength"
  buying_strategies := ["Buy calls if you believe the stock will continue to rise"]
  selling_strategies := ["Sell puts if you believe the stock will remain above the strike price",
                         "Write covered calls if you own the stock and want to generate income"]

/-- The no-divergence report. -/
def noDivReport (o s : PF) : DivReport where
  option_rsi := some o
  stock_rsi := some s
  rsi_difference := some (pfSub o s)
  divergence_type := "none"
  interpretation := "No significant divergence detected"
  buying_strategies := []
  selling_strategies := []

/-- The `except` branch of `analyze_rsi_divergence`. -/
def errorDivReport : DivReport where
  option_rsi := none
  stock_rsi := none
  rsi_difference := none
  divergence_type := "error"
  interpretation := "Error analyzing divergence"
  buying_strategies := []
  selling_strategies := []

/-- Lines 187-216 of `analyze_rsi_divergence`: from the two latest RSI
floats, build the base dict and overwrite its classification fields when
`abs(rsi_diff) > 10`, choosing bearish when `option_rsi > stock_rsi`. -/
def rsiDivergenceCore (option_rsi stock_rsi : PF) : DivReport :=
  let rsi_diff := pfSub option_rsi stock_rsi
  if pfLt (PF.val 10) (pfAbs rsi_diff) then
    if pfLt stock_rsi option_rsi then bearishDivReport option_rsi stock_rsi
    else bullishDivReport option_rsi stock_rsi
  else noDivReport option_rsi stock_rsi

/-- `analyze_rsi_divergence` (src/data/technical_indicators.py, lines
129-228): reads `df['rsi'].iloc[-1]` of each frame — a missing `rsi` column
(KeyError) or an empty column (IndexError) lands in the `except` branch
returning the error dict — then classifies. -/
def analyze_rsi_divergence (option_df stock_df : DF) : DivReport :=
  match option_df.rsi, stock_df.rsi with
  | some ro, some rs =>
    match ro.getLast?, rs.getLast? with
    | some o, some s => rsiDivergenceCore o s
    | _, _ => errorDivReport
  | _, _ => errorDivReport

/-- `analyze_volatility_skew`'s result dictionary. -/
structure SkewReport where
  implied_volatility : PF
  realized_volatility : PF
  skew : PF
  skew_type : String
  interpretation : String
  buying_strategies : List String
  selling_strategies : List String
deriving DecidableEq, Repr

/-- The fixed positive-skew report (only selling strategies populated). -/
def positiveSkewReport (iv rv : PF) : SkewReport where
  implied_volatility := iv
  realized_volatility := rv
  skew := pfSub iv rv
  skew_type := "positive"
  interpretation := "Positive volatility skew: Option is priced with higher volatility than its actual price movements, suggesting it may be overpriced"
  buying_strategies := []
  selling_strategies := ["Sell covered calls if you own the stock",
                         "Write cash-secured puts if you want to potentially buy the stock at a lower price",
                         "Sell premium through credit spreads"]

/-- The fixed negative-skew report (only buying strategies populated). -/
def negativeSkewReport (iv rv : PF) : SkewReport where
  implied_volatility := iv
  realized_volatility := rv
  skew := pfSub iv rv
  skew_type := "negative"
  interpretation := "Negative volatility skew: Option is priced with lower volatility than its actual price movements, suggesting it may be underpriced"
  buying_strategies := ["Buy calls if you expect the stock to rise",
                        "Buy puts if you expect the stock to fall",
                        "Consider debit spreads to reduce cost while maintaining directional exposure"]
  selling_strategies := []

/-- The neutral report (both strategy lists empty). -/
def neutralSkewReport (iv rv : PF) : SkewReport where
  implied_volatility := iv
  realized_volatility := rv
  skew := pfSub iv rv
  skew_type := "neutral"
  interpretation := "No significant volatility skew detected"
  buying_strategies := []
  selling_strategies := []

/-- `analyze_volatility_skew` (src/data/technical_indicators.py, lines
283-370): `skew = implied_vol - realized_vol`; when `abs(skew) > 0.05` the
sign of `skew` picks positive/negative, else the neutral base dict stands. -/
def analyze_volatility_skew (implied_vol realized_vol : PF) : SkewReport :=
  let skew := pfSub implied_vol realized_vol
  if pfLt (PF.val (1/20)) (pfAbs skew) then
    if pfLt (PF.val 0) skew then positiveSkewReport implied_vol realized_vol
    else negativeSkewReport implied_vol realized_vol
  else neutralSkewReport implied_vol realized_vol

/-- `analyze_vix`'s result dictionary.  `current_vix` is `none` when the
Python dict holds `None`; `vix_trend` is `none` when the dict has no
`vix_trend` key at all (the empty-frame early return). -/
structure VixReport where
  current_vix : Option ℚ
  vix_level : String
  vix_trend : Option String
  interpretation : String
  trading_implications : List String
deriving DecidableEq, Repr

/-- The level classification block of `analyze_vix` (lines 217-248 of
src/api_handlers/option.py): (level, interpretation, implications). -/
def vixLevelInfo (current_vix : ℚ) : String × String × List String :=
  if current_vix < 15 then
    ("low",
     "Market is calm with low fear. This environment typically favors premium selling strategies.",
     ["Consider selling premium through covered calls or cash-secured puts",
      "Look for opportunities to write credit spreads",
      "Be cautious of complacency - low VIX can precede market corrections"])
  else if current_vix < 25 then
    ("normal",
     "Normal to slightly elevated volatility. Market sentiment is balanced.",
     ["Consider a mix of directional and volatility strategies",
      "Look for opportunities in both premium selling and buying",
      "Monitor for any sudden VIX spikes that might indicate changing sentiment"])
  else if current_vix < 30 then
    ("elevated",
     "Elevated fear in the market. Possible market panic or correction ahead.",
     ["Consider buying protection through puts or inverse ETFs",
      "Reduce position sizes and increase cash reserves",
      "Look for opportunities to buy options when VIX starts to decline"])
  else
    ("extreme",
     "Extreme fear in the market. Often seen during market crashes or crises.",
     ["Consider buying calls for a potential bounce when fear subsides",
      "Look for oversold conditions to buy into weakness",
      "Be prepared for continued volatility and avoid overleveraging"])

/-- `all(x[i] <= x[i+1] for consecutive pairs)`. -/
def nondecB : List ℚ → Bool
  | [] => true
  | [_] => true
  | a :: b :: t => decide (a ≤ b) && nondecB (b :: t)

/-- `all(x[i] >= x[i+1] for consecutive pairs)`. -/
def nonincB : List ℚ → Bool
  | [] => true
  | [_] => true
  | a :: b :: t => decide (b ≤ a) && nonincB (b :: t)

/-- The sentence and implication appended when the VIX trend is rising. -/
def vixRisingSentence : String :=
  " VIX is rising, indicating increasing market uncertainty."

/-- Rising-trend extra implication. -/
def vixRisingImplication : String :=
  "Consider reducing exposure or adding hedges as uncertainty increases."

/-- The sentence and implication appended when the VIX trend is falling. -/
def vixFallingSentence : String :=
  " VIX is falling, indicating decreasing market uncertainty."

/-- Falling-trend extra implication. -/
def vixFallingImplication : String :=
  "Consider increasing exposure as fear subsides."

/-- `analyze_vix` (src/api_handlers/option.py, lines 177-279) on the VIX
close column.  An empty frame triggers the early return whose dict has no
`vix_trend` key; otherwise the level block runs on `Close.iloc[-1]`, and
when at least 5 bars exist the last 5 closes are tested, non-decreasing
first (so an all-equal run counts as rising), then non-increasing. -/
def analyze_vix (closes : List ℚ) : VixReport :=
  match h : closes with
  | [] =>
    { current_vix := none
      vix_level := "unknown"
      vix_trend := none
      interpretation := "No VIX data available"
      trading_implications := [] }
  | c :: rest =>
    let current_vix := (c :: rest).getLast (by simp)
    let info := vixLevelInfo current_vix
    let recent := closes.drop (closes.length - 5)
    if 5 ≤ closes.length then
      if nondecB recent then
        { current_vix := some current_vix
          vix_level := info.1
          vix_trend := some "rising"
          interpretation := info.2.1 ++ vixRisingSentence
          trading_implications := info.2.2 ++ [vixRisingImplication] }
      else if nonincB recent then
        { current_vix := some current_vix
          vix_level := info.1
          vix_trend := some "falling"
          interpretation := info.2.1 ++ vixFallingSentence
          trading_implications := info.2.2 ++ [vixFallingImplication] }
      else
        { current_vix := some current_vix
          vix_level := info.1
          vix_trend := some "neutral"
          interpretation := info.2.1
          trading_implications := info.2.2 }
    else
      { current_vix := some current_vix
        vix_level := info.1
        vix_trend := some "neutral"
        interpretation := info.2.1
        trading_implications := info.2.2 }

/-!
### Rate-limited client (src/api_handlers/polygon_client.py)

Wall-clock instants are whole seconds (`ℕ`); `datetime.date()` becomes the
day number `t / 86400`.
-/

/-- Number of seconds per day. -/
def secondsPerDay : ℕ := 86400

/-- `current_time.date()`. -/
def dateOf (t : ℕ) : ℕ := t / secondsPerDay

/-- The rate-limiting counters of `RateLimitedClient` (`_request_count`,
`_last_request_time`, `_reset_time`; `_daily_limit` is the constant 5). -/
structure RL where
  request_count : ℕ
  last_request_time : Option ℕ
  reset_time : Option ℕ
deriving DecidableEq, Repr

/-- `_daily_limit = 5` (free plan). -/
def dailyLimit : ℕ := 5

/-- The counters as `__init__` leaves them. -/
def rlInit : RL := ⟨0, none, none⟩

/-- The sub-second spacing sleep: when less than 1 second elapsed since the
last request, sleep the remaining fraction (`time.sleep(1 - time_since_last)`),
else 0. -/
def sleptFor (now : ℕ) : Option ℕ → ℚ
  | some l => if (now : ℤ) - l < 1 then 1 - ((now : ℤ) - (l : ℤ) : ℚ) else 0
  | none => 0

/-- `_check_rate_limit` at wall-clock instant `now`: first the midnight
reset (`request_count` zeroed and `reset_time` cleared when today is
strictly after `reset_time`'s date), then `reset_time` is stamped if unset,
then the quota test raises — the error value is the hours until reset,
`(reset_time + 1 day - now) / 3600` — and otherwise the sub-second spacing
sleep runs and the counters are updated.  On success the result carries the
new state and the seconds slept. -/
def checkRateLimit (now : ℕ) (s : RL) : Except ℚ (RL × ℚ) :=
  let s1 :=
    if (match s.reset_time with
        | some r => decide (dateOf r < dateOf now)
        | none => false) then
      { s with request_count := 0, reset_time := none }
    else s
  let s2 := if s1.reset_time = none then { s1 with reset_time := some now } else s1
  if dailyLimit ≤ s2.request_count then
    Except.error ((((s2.reset_time.getD now : ℤ) + secondsPerDay - now : ℤ) : ℚ) / 3600)
  else
    Except.ok ({ s2 with request_count := s2.request_count + 1,
                         last_request_time := some now }, sleptFor now s2.last_request_time)

/-!
### Retry behaviour of `get_aggs`

The client configures `urllib3.util.retry.Retry(total=3,
backoff_factor=0.5, status_forcelist=[429, 500, 502, 503, 504])`; the loop
that executes those retries lives in urllib3, outside this repository.
-/

/-- Outcome of one HTTP attempt: a successful payload or an HTTP status. -/
inductive Attempt where
  | success : ℕ → Attempt
  | failure : ℕ → Attempt
deriving DecidableEq, Repr

/-- `status_forcelist` from `RateLimitedClient.__init__`. -/
def retryStatuses : List ℕ := [429, 500, 502, 503, 504]

/-- Modelled from the spec: the backoff schedule "0.5s, 1.0s, 2.0s" of the
retry executor (the executor itself is in urllib3, not in this
repository's sources; only its configuration — 3 retries, backoff factor
0.5, the force list — is). -/
def backoffDelays : List ℚ := [1/2, 1, 2]

/-- Modelled from the spec: the retry loop around one aggregate fetch.
`att n` is the outcome of the (n+1)-th HTTP attempt; `delays` the backoff
sleeps still available.  A success returns its payload; a failure with a
status outside the force list surfaces immediately; a retryable failure
sleeps the next delay and retries, or surfaces once the budget is
exhausted.  The result carries the cumulative seconds slept. -/
def retryGo (att : ℕ → Attempt) : ℕ → List ℚ → ℚ → Except ℕ ℕ × ℚ
  | i, delays, acc =>
    match att i with
    | .success v => (Except.ok v, acc)
    | .failure status =>
      if status ∈ retryStatuses then
        match delays with
        | [] => (Except.error status, acc)
        | d :: rest => retryGo att (i + 1) rest (acc + d)
      else (Except.error status, acc)

/-- Modelled from the spec: `get_aggs` request execution — initial attempt
plus up to 3 retries on the fixed schedule. -/
def get_aggs_retries (att : ℕ → Attempt) : Except ℕ ℕ × ℚ :=
  retryGo att 0 backoffDelays 0

/-!
### Analysis orchestrator (src/api_handlers/option.py, analyze_stock_and_option)

The whole body sits in one `try`; any exception makes it return the
all-`None` tuple.  The body is modelled in `Except Unit`, where `throw ()`
marks each operation of the source that raises on the data reaching it:
`None.empty` (AttributeError), `f-string` formatting of a Python `None`
with `:.2f` (TypeError), and the missing `vix_trend` key (KeyError).
-/

/-- The orchestrator's five-artifact result tuple. -/
structure OrchResult where
  option_df : Option DF
  stock_df : Option DF
  divergence : Option DivReport
  volatility : Option SkewReport
  vix : Option VixReport
deriving DecidableEq, Repr

/-- `(None, None, None, None, None)`. -/
def allNoneResult : OrchResult := ⟨none, none, none, none, none⟩

/-- The per-frame augmentation block (lines 329-339 / 342-352): when the
frame has at least 2 rows, rewrite the signal column from `df['rsi']`
(raising KeyError if that column were missing), add
`price_delta = close - close.iloc[0]` and `daily_return = pct_change()`.
At its call sites the rsi column exists and has the frame's length, so
`signalCol` coincides with the pandas masked assignment. -/
def augmentFrame (df : DF) : Except Unit DF :=
  if 2 ≤ df.close.length then
    match df.rsi with
    | none => Except.error ()
    | some r =>
      Except.ok { df with
        signal := some (signalCol r)
        price_delta := some (df.close.map fun c => c - df.close.headD 0)
        daily_return := some (pctChange df.close) }
  else Except.ok df

/-- The `try` body of `analyze_stock_and_option` (lines 296-418), given the
outcomes of the four outbound calls: the option fetch, the stock fetch and
the VIX fetch (each `none` when the helper returned `None`), and the
implied-volatility fetch.  In this embedding the realized volatility fed to
the skew analysis is represented by its square (see
`calculate_realized_volatility_sq`); only the presence of that report is
used in the theorems below. -/
def orchestratorBody (optRes stockRes : Option DF) (vixRes : Option (List ℚ))
    (ivRes : Option ℚ) : Except Unit OrchResult :=
  -- `if option_df is None or stock_df.empty:` (line 308): `or` short-circuits,
  -- and `.empty` on a `None` stock frame raises AttributeError.
  match optRes with
  | none => Except.ok allNoneResult
  | some odf0 =>
    match stockRes with
    | none => Except.error ()
    | some sdf0 =>
      if sdf0.close = [] then Except.ok allNoneResult
      else
        -- stock_df.rename(columns=...) — a no-op in this model — then
        -- calculate_rsi_for_both(option_df, stock_df, period=14) and the
        -- two augmentation blocks (whose exceptions propagate):
        match augmentFrame (calculate_rsi odf0 14).1,
              augmentFrame (calculate_rsi sdf0 14).1 with
        | Except.ok odf2, Except.ok sdf2 =>
          let divergence := analyze_rsi_divergence odf2 sdf2
          -- the divergence logging formats option_rsi/stock_rsi/rsi_difference
          -- with `:.2f`, raising TypeError when the dict holds Python None:
          if divergence.option_rsi = none then Except.error ()
          else
            -- implied volatility, then the optional skew analysis; note
            -- calculate_realized_volatility writes daily_return into the
            -- option frame itself, which is the frame returned to the caller.
            let vres : Option SkewReport × DF :=
              match ivRes with
              | none => (none, odf2)
              | some iv =>
                let rv := calculate_realized_volatility_sq odf2 252 true
                (some (analyze_volatility_skew (PF.val iv) rv.1), rv.2)
            -- VIX: analyze when the fetch returned a frame; the VIX logging
            -- formats current_vix with `:.2f` (TypeError on Python None) and
            -- reads the vix_trend key (KeyError when absent).
            match vixRes with
            | none => Except.ok ⟨some vres.2, some sdf2, some divergence, vres.1, none⟩
            | some closes =>
              let va := analyze_vix closes
              if va.current_vix = none then Except.error ()
              else Except.ok ⟨some vres.2, some sdf2, some divergence, vres.1, some va⟩
        | _, _ => Except.error ()

/-- `analyze_stock_and_option` with the four outbound-call outcomes as
inputs: the `except` clause turns any exception into the all-`None`
tuple. -/
def analyze_stock_and_option (optRes stockRes : Option DF)
    (vixRes : Option (List ℚ)) (ivRes : Option ℚ) : OrchResult :=
  match orchestratorBody optRes stockRes vixRes ivRes with
  | .ok r => r
  | .error _ => allNoneResult

/-!
### Specification-side definitions

Two definitions below transcribe the specification's own words (not the
source) so that the source-derived functions can be compared against them.
-/

/-- The RSI value of bar `i` as the specification describes it directly:
the `period` consecutive deltas ending at bar `i`, their average gain and
average loss, RS, and `100 - 100/(1 + RS)`, with the code's zero-loss
conventions (RSI 100 when only the loss average is 0, undefined when both
averages are 0). -/
def rsiSpecAt (closes : List ℚ) (period i : ℕ) : PF :=
  let delta := fun k : Fin period =>
    closes.getD (i + 1 - period + k.val) 0 - closes.getD (i - period + k.val) 0
  let avg_gain := (List.ofFn fun k => max (delta k) 0).sum / (period : ℚ)
  let avg_loss := (List.ofFn fun k => max (-(delta k)) 0).sum / (period : ℚ)
  if avg_loss = 0 then (if avg_gain = 0 then PF.nan else PF.val 100)
  else PF.val (100 - 100 / (1 + avg_gain / avg_loss))

/-- The realized-volatility computation as the specification words it:
"standard deviation of simple daily returns over the most recent
`min(window, len(series))` bars; annualized by multiplying by sqrt 252 when
requested" — squared, like `calculate_realized_volatility_sq`, to stay
rational. -/
def spec_realized_volatility_sq (closes : List ℚ) (window : ℕ)
    (annualize : Bool) : PF :=
  let recent := closes.drop (closes.length - min window closes.length)
  let dr := pctChange recent
  let std_sq := sampleVarPF dr
  if annualize then pfScale 252 std_sq else std_sq

/-!
## Theorems
-/

/-- C5: for every pair of latest RSI values, the divergence report is
bearish exactly when `option_rsi - stock_rsi > 10` (with the fixed bearish
interpretation and strategy lists), bullish exactly when the difference is
below `-10`, and `none` whenever the difference has magnitude at most 10 —
so the thresholds at exactly plus or minus 10 do not trigger divergence. -/
theorem c5_divergence_threshold (o s : ℚ) :
    (10 < o - s →
      rsiDivergenceCore (PF.val o) (PF.val s) = bearishDivReport (PF.val o) (PF.val s)) ∧
    (o - s < -10 →
      rsiDivergenceCore (PF.val o) (PF.val s) = bullishDivReport (PF.val o) (PF.val s)) ∧
    (|o - s| ≤ 10 →
      rsiDivergenceCore (PF.val o) (PF.val s) = noDivReport (PF.val o) (PF.val s)) := by
  refine ⟨fun h => ?_, fun h => ?_, fun h => ?_⟩ <;>
  · simp only [rsiDivergenceCore, pfSub, pfNeg, pfAdd, pfAbs, pfLt, decide_eq_true_eq,
      ← sub_eq_add_neg]
    split_ifs with h1 h2 <;>
      first
        | rfl
        | (exfalso; rcases abs_cases (o - s) with ⟨he, _⟩ | ⟨he, _⟩ <;> linarith)

/-- C5 witness: concrete instances — difference 15 is bearish, -25 is
bullish, and differences of exactly 10 and exactly -10 are classified as no
divergence. -/
theorem c5_divergence_threshold_witness :
    rsiDivergenceCore (PF.val 55) (PF.val 40) = bearishDivReport (PF.val 55) (PF.val 40) ∧
    rsiDivergenceCore (PF.val 30) (PF.val 55) = bullishDivReport (PF.val 30) (PF.val 55) ∧
    rsiDivergenceCore (PF.val 60) (PF.val 50) = noDivReport (PF.val 60) (PF.val 50) ∧
    rsiDivergenceCore (PF.val 40) (PF.val 50) = noDivReport (PF.val 40) (PF.val 50) :=
  ⟨(c5_divergence_threshold 55 40).1 (by norm_num),
   (c5_divergence_threshold 30 55).2.1 (by norm_num),
   (c5_divergence_threshold 60 50).2.2 (by norm_num),
   (c5_divergence_threshold 40 50).2.2 (by norm_num)⟩

/-- C6: for every pair of volatilities, the skew report is positive (only
selling strategies populated) exactly when `implied - realized > 0.05`,
negative (only buying strategies populated) exactly when the difference is
below `-0.05`, and neutral with both strategy lists empty whenever the skew
magnitude is at most 0.05 — so a magnitude of exactly 0.05 is neutral. -/
theorem c6_skew_threshold (iv rv : ℚ) :
    (1/20 < iv - rv →
      analyze_volatility_skew (PF.val iv) (PF.val rv) = positiveSkewReport (PF.val iv) (PF.val rv)) ∧
    (iv - rv < -(1/20) →
      analyze_volatility_skew (PF.val iv) (PF.val rv) = negativeSkewReport (PF.val iv) (PF.val rv)) ∧
    (|iv - rv| ≤ 1/20 →
      analyze_volatility_skew (PF.val iv) (PF.val rv) = neutralSkewReport (PF.val iv) (PF.val rv)) := by
  refine ⟨fun h => ?_, fun h => ?_, fun h => ?_⟩ <;>
  · simp only [analyze_volatility_skew, pfSub, pfNeg, pfAdd, pfAbs, pfLt, decide_eq_true_eq,
      ← sub_eq_add_neg]
    split_ifs with h1 h2 <;>
      first
        | rfl
        | (exfalso; rcases abs_cases (iv - rv) with ⟨he, _⟩ | ⟨he, _⟩ <;> linarith)

/-- C6 witness: skew 0.10 is positive, -0.10 is negative, and a skew of
exactly 0.05 (implied 0.25, realized 0.20) is neutral. -/
theorem c6_skew_threshold_witness :
    analyze_volatility_skew (PF.val (3/10)) (PF.val (1/5)) =
      positiveSkewReport (PF.val (3/10)) (PF.val (1/5)) ∧
    analyze_volatility_skew (PF.val (1/5)) (PF.val (3/10)) =
      negativeSkewReport (PF.val (1/5)) (PF.val (3/10)) ∧
    analyze_volatility_skew (PF.val (1/4)) (PF.val (1/5)) =
      neutralSkewReport (PF.val (1/4)) (PF.val (1/5)) :=
  ⟨(c6_skew_threshold (3/10) (1/5)).1 (by norm_num),
   (c6_skew_threshold (1/5) (3/10)).2.1 (by norm_num),
   (c6_skew_threshold (1/4) (1/5)).2.2 (by rw [abs_le]; constructor <;> norm_num)⟩

/-- C10: the frame returned by `calculate_rsi` carries a signal for every
bar (the signal column has the full length of the series), and every bar
whose RSI is undefined (NaN) is labeled neutral, because a NaN compares
false against both the 70 and the 30 threshold. -/
theorem c10_signal_totality (df : DF) (period : ℕ) :
    ((calculate_rsi df period).1.signal.getD []).length = df.close.length ∧
    ∀ i (h1 : i < ((calculate_rsi df period).1.rsi.getD []).length)
      (h2 : i < ((calculate_rsi df period).1.signal.getD []).length),
      ((calculate_rsi df period).1.rsi.getD []).get ⟨i, h1⟩ = PF.nan →
      ((calculate_rsi df period).1.signal.getD []).get ⟨i, h2⟩ = Signal.neutral := by
  constructor
  · simp [calculate_rsi, signalCol, rollingMean, diffCol, gainsCol, lossesCol]
  · intro i h1 h2 hnan
    show (signalCol ((calculate_rsi df period).1.rsi.getD [])).get ⟨i, _⟩ = Signal.neutral
    rw [List.get_eq_getElem] at hnan ⊢
    simp only [signalCol, List.getElem_map]
    rw [hnan]
    rfl

/-- C10 witness: on a 2-bar series with period 14 every RSI is NaN and the
first bar's signal is neutral. -/
theorem c10_signal_totality_witness :
    ((calculate_rsi ⟨[1, 2], none, none, none, none⟩ 14).1.signal.getD []).get
      ⟨0, by decide⟩ = Signal.neutral :=
  (c10_signal_totality ⟨[1, 2], none, none, none, none⟩ 14).2 0 (by decide) (by decide)
    (by decide)

/-- C1: starting from a fresh client, five quota checks at any times of one
calendar day all succeed, each raising `request_count` by one and stamping
`last_request_time` with the call's instant (with `reset_time` stamped at
the first call); the sixth same-day check raises the quota-exhausted error
carrying the hours until reset; and any later-day check succeeds again
because the counter is zeroed and `reset_time` restamped. -/
theorem c1_rate_limiter_quota (t0 t1 t2 t3 t4 t5 : ℕ)
    (h1 : dateOf t1 = dateOf t0) (h2 : dateOf t2 = dateOf t0)
    (h3 : dateOf t3 = dateOf t0) (h4 : dateOf t4 = dateOf t0)
    (h5 : dateOf t5 = dateOf t0) :
    ∃ w1 w2 w3 w4 w5,
      checkRateLimit t0 rlInit = Except.ok (⟨1, some t0, some t0⟩, w1) ∧
      checkRateLimit t1 ⟨1, some t0, some t0⟩ = Except.ok (⟨2, some t1, some t0⟩, w2) ∧
      checkRateLimit t2 ⟨2, some t1, some t0⟩ = Except.ok (⟨3, some t2, some t0⟩, w3) ∧
      checkRateLimit t3 ⟨3, some t2, some t0⟩ = Except.ok (⟨4, some t3, some t0⟩, w4) ∧
      checkRateLimit t4 ⟨4, some t3, some t0⟩ = Except.ok (⟨5, some t4, some t0⟩, w5) ∧
      checkRateLimit t5 ⟨5, some t4, some t0⟩ =
        Except.error ((((t0 : ℤ) + (secondsPerDay : ℤ) - (t5 : ℤ) : ℤ) : ℚ) / 3600) ∧
      ∀ t6, dateOf t0 < dateOf t6 →
        ∃ w6, checkRateLimit t6 ⟨5, some t4, some t0⟩ =
          Except.ok (⟨1, some t6, some t6⟩, w6) := by
  refine ⟨sleptFor t0 none, sleptFor t1 (some t0), sleptFor t2 (some t1),
          sleptFor t3 (some t2), sleptFor t4 (some t3), ?_, ?_, ?_, ?_, ?_, ?_, ?_⟩
  · simp [checkRateLimit, rlInit, dailyLimit]
  · simp [checkRateLimit, dailyLimit, h1]
  · simp [checkRateLimit, dailyLimit, h2]
  · simp [checkRateLimit, dailyLimit, h3]
  · simp [checkRateLimit, dailyLimit, h4]
  · simp [checkRateLimit, dailyLimit, h5]
  · intro t6 h6
    refine ⟨sleptFor t6 (some t4), ?_⟩
    simp [checkRateLimit, dailyLimit, h6]

/-- C1 witness: six calls at seconds 0..5 of day zero — the sixth errors
with the hours until reset — and a call at second 86400 (the next day)
succeeds with the counter back at 1. -/
theorem c1_rate_limiter_quota_witness :
    checkRateLimit 5 ⟨5, some 4, some 0⟩ =
      Except.error ((((0 : ℤ) + (secondsPerDay : ℤ) - (5 : ℤ) : ℤ) : ℚ) / 3600) ∧
    ∃ w6, checkRateLimit 86400 ⟨5, some 4, some 0⟩ =
      Except.ok (⟨1, some 86400, some 86400⟩, w6) := by
  obtain ⟨w1, w2, w3, w4, w5, a1, a2, a3, a4, a5, a6, a7⟩ :=
    c1_rate_limiter_quota 0 1 2 3 4 5 (by decide) (by decide) (by decide) (by decide)
      (by decide)
  exact ⟨a6, a7 86400 (by decide)⟩

/-- One unfolding step of the retry loop. -/
theorem retryGo_step (att : ℕ → Attempt) (i : ℕ) (delays : List ℚ) (acc : ℚ) :
    retryGo att i delays acc =
      match att i with
      | .success v => (Except.ok v, acc)
      | .failure status =>
        if status ∈ retryStatuses then
          match delays with
          | [] => (Except.error status, acc)
          | d :: rest => retryGo att (i + 1) rest (acc + d)
        else (Except.error status, acc) := by
  rw [retryGo]

/-- The retry loop on a successful attempt. -/
theorem retryGo_success (att : ℕ → Attempt) (i : ℕ) (delays : List ℚ) (acc : ℚ) (v : ℕ)
    (h : att i = Attempt.success v) :
    retryGo att i delays acc = (Except.ok v, acc) := by
  rw [retryGo_step, h]

/-- The retry loop on a retryable failure with backoff budget remaining:
sleep the next delay and move to the next attempt. -/
theorem retryGo_failure_cons (att : ℕ → Attempt) (i : ℕ) (d : ℚ) (rest : List ℚ)
    (acc : ℚ) (s : ℕ) (h : att i = Attempt.failure s) (hs : s ∈ retryStatuses) :
    retryGo att i (d :: rest) acc = retryGo att (i + 1) rest (acc + d) := by
  rw [retryGo_step, h]
  show (if s ∈ retryStatuses then retryGo att (i + 1) rest (acc + d)
        else (Except.error s, acc)) = _
  rw [if_pos hs]

/-- The retry loop on a retryable failure with the budget exhausted. -/
theorem retryGo_failure_nil (att : ℕ → Attempt) (i : ℕ) (acc : ℚ) (s : ℕ)
    (h : att i = Attempt.failure s) (hs : s ∈ retryStatuses) :
    retryGo att i [] acc = (Except.error s, acc) := by
  rw [retryGo_step, h]
  show (if s ∈ retryStatuses then (Except.error s, acc)
        else ((Except.error s, acc) : Except ℕ ℕ × ℚ)) = _
  rw [if_pos hs]

/-- The retry loop on a non-retryable failure: surface immediately. -/
theorem retryGo_failure_other (att : ℕ → Attempt) (i : ℕ) (delays : List ℚ)
    (acc : ℚ) (s : ℕ) (h : att i = Attempt.failure s) (hs : s ∉ retryStatuses) :
    retryGo att i delays acc = (Except.error s, acc) := by
  rw [retryGo_step, h]
  show (if s ∈ retryStatuses then
          (match delays with
           | [] => (Except.error s, acc)
           | d :: rest => retryGo att (i + 1) rest (acc + d))
        else (Except.error s, acc)) = _
  rw [if_neg hs]

/-- C8: under the configured policy — 3 retries, backoff 0.5s/1.0s/2.0s,
force list {429, 500, 502, 503, 504} — a failure with any other status
surfaces immediately with no backoff; a fetch failing twice with 503 and
succeeding on the third attempt returns the success after 1.5s of
cumulative backoff; and a fetch whose four attempts all fail with
retryable statuses surfaces the last error after exhausting the 3.5s
schedule. -/
theorem c8_retry_schedule :
    (∀ (att : ℕ → Attempt) (s : ℕ), att 0 = Attempt.failure s → s ∉ retryStatuses →
      get_aggs_retries att = (Except.error s, 0)) ∧
    (∀ (att : ℕ → Attempt) (v : ℕ), att 0 = Attempt.failure 503 →
      att 1 = Attempt.failure 503 → att 2 = Attempt.success v →
      get_aggs_retries att = (Except.ok v, 3/2)) ∧
    (∀ (att : ℕ → Attempt) (s0 s1 s2 s3 : ℕ),
      att 0 = Attempt.failure s0 → att 1 = Attempt.failure s1 →
      att 2 = Attempt.failure s2 → att 3 = Attempt.failure s3 →
      s0 ∈ retryStatuses → s1 ∈ retryStatuses → s2 ∈ retryStatuses →
      s3 ∈ retryStatuses →
      get_aggs_retries att = (Except.error s3, 7/2)) := by
  refine ⟨?_, ?_, ?_⟩
  · intro att s h0 hs
    rw [get_aggs_retries, retryGo_failure_other att 0 backoffDelays 0 s h0 hs]
  · intro att v h0 h1 h2
    rw [get_aggs_retries, backoffDelays,
        retryGo_failure_cons att 0 _ _ _ 503 h0 (by decide),
        retryGo_failure_cons att 1 _ _ _ 503 h1 (by decide),
        retryGo_success att 2 _ _ v h2]
    norm_num
  · intro att s0 s1 s2 s3 h0 h1 h2 h3 m0 m1 m2 m3
    rw [get_aggs_retries, backoffDelays,
        retryGo_failure_cons att 0 _ _ _ s0 h0 m0,
        retryGo_failure_cons att 1 _ _ _ s1 h1 m1,
        retryGo_failure_cons att 2 _ _ _ s2 h2 m2,
        retryGo_failure_nil att 3 _ s3 h3 m3]
    norm_num

/-- C8 witness: a 404 surfaces at once; 503/503/success returns the payload
after 1.5s of backoff; four straight 503s surface the last 503 after
3.5s. -/
theorem c8_retry_schedule_witness :
    get_aggs_retries (fun _ => Attempt.failure 404) = (Except.error 404, 0) ∧
    get_aggs_retries (fun i => if i < 2 then Attempt.failure 503 else Attempt.success 7) =
      (Except.ok 7, 3/2) ∧
    get_aggs_retries (fun _ => Attempt.failure 503) = (Except.error 503, 7/2) :=
  ⟨c8_retry_schedule.1 _ 404 rfl (by decide),
   c8_retry_schedule.2.1 _ 7 rfl rfl rfl,
   c8_retry_schedule.2.2 _ 503 503 503 503 rfl rfl rfl rfl (by decide) (by decide)
     (by decide) (by decide)⟩

/-- C9 counterexample: `calculate_realized_volatility` does mutate the
caller's frame — calling it on a fresh 2-bar frame leaves the argument with
a `daily_return` column it did not have before. -/
theorem c9_counterexample :
    (calculate_realized_volatility_sq ⟨[1, 2], none, none, none, none⟩ 252 true).2 ≠
      ⟨[1, 2], none, none, none, none⟩ := by decide

/-- C9 amended: `calculate_rsi` always leaves the caller's frame unchanged
(it copies first), but `calculate_realized_volatility` leaves the caller's
frame unchanged precisely when the frame already had a `daily_return`
column; when that column is absent the function writes it into the caller's
frame in place. -/
theorem c9_mutation (df : DF) (period window : ℕ) (annualize : Bool) :
    (calculate_rsi df period).2 = df ∧
    ((calculate_realized_volatility_sq df window annualize).2 = df ↔
      df.daily_return.isSome) := by
  refine ⟨rfl, ?_⟩
  obtain ⟨c, r, sg, pd, dr⟩ := df
  cases dr with
  | none =>
    simp [calculate_realized_volatility_sq]
  | some l =>
    simp [calculate_realized_volatility_sq]

/-- C4 counterexample: with window 2 on the 3-bar series [1, 2, 3], the code
returns a defined volatility (the deviation is taken over all returns of the
frame), while the specification's formula over the most recent
`min(window, len)` = 2 bars has a single return and thus an undefined
standard deviation — the `window` parameter is dead in the code. -/
theorem c4_counterexample :
    (calculate_realized_volatility_sq ⟨[1, 2, 3], none, none, none, none⟩ 2 false).1 ≠
      spec_realized_volatility_sq [1, 2, 3] 2 false := by decide

/-- C4 amended: `calculate_realized_volatility` equals the specification
formula with the window forced to the full series length — the standard
deviation of the daily returns of all bars, annualized when requested — and
on a series of fewer than 2 bars it returns the NaN sentinel (and, being a
total function, never raises).  Stated on squared values, which the
strictly monotone square root carries back to the code's floats. -/
theorem c4_realized_volatility (closes : List ℚ) (window : ℕ) (annualize : Bool) :
    (calculate_realized_volatility_sq ⟨closes, none, none, none, none⟩ window annualize).1 =
      spec_realized_volatility_sq closes closes.length annualize ∧
    (closes.length < 2 →
      (calculate_realized_volatility_sq ⟨closes, none, none, none, none⟩ window annualize).1 =
        PF.nan) := by
  constructor
  · simp [calculate_realized_volatility_sq, spec_realized_volatility_sq]
  · intro h
    match closes, h with
    | [], _ =>
      cases annualize <;> rfl
    | [a], _ =>
      cases annualize <;> rfl

/-- C4 witness: a single-bar series yields the NaN sentinel. -/
theorem c4_realized_volatility_witness :
    (calculate_realized_volatility_sq ⟨[5], none, none, none, none⟩ 252 true).1 = PF.nan :=
  (c4_realized_volatility [5] 252 true).2 (by decide)

/-- A run of pairwise-equal closes is non-decreasing. -/
theorem nondecB_of_all_eq (l : List ℚ) (h : ∀ a ∈ l, ∀ b ∈ l, a = b) :
    nondecB l = true := by
  induction l with
  | nil => rfl
  | cons a t ih =>
    cases t with
    | nil => rfl
    | cons b t2 =>
      have hab : a = b := h a (by simp) b (by simp)
      have ht : nondecB (b :: t2) = true :=
        ih (fun x hx y hy => h x (by simp [hx]) y (by simp [hy]))
      simp [nondecB, hab, ht]

/-- C7 counterexample: on an empty VIX series (fewer than 5 bars) the
report's `vix_trend` is not `neutral` — the early return produces a dict
with no `vix_trend` key at all. -/
theorem c7_counterexample :
    (analyze_vix []).vix_trend ≠ some "neutral" ∧
    (analyze_vix []).vix_trend = none := by decide

/-- C7 amended: for every nonempty VIX series, the trend is evaluated only
when at least 5 bars exist (fewer give `neutral` with the level's base
implications); over the last 5 closes a non-decreasing run is `rising`
with exactly one cautionary implication appended, a non-increasing (but
not non-decreasing) run is `falling` with one opportunity implication
appended, anything else is `neutral`; and an all-equal run of 5 closes is
classified `rising` because rising is checked first.  (An empty series
instead takes the early return whose report has no trend field.) -/
theorem c7_vix_trend (closes : List ℚ) (hne : closes ≠ []) :
    (closes.length < 5 →
      (analyze_vix closes).vix_trend = some "neutral" ∧
      (analyze_vix closes).trading_implications =
        (vixLevelInfo (closes.getLast hne)).2.2) ∧
    (5 ≤ closes.length → nondecB (closes.drop (closes.length - 5)) = true →
      (analyze_vix closes).vix_trend = some "rising" ∧
      (analyze_vix closes).trading_implications =
        (vixLevelInfo (closes.getLast hne)).2.2 ++ [vixRisingImplication]) ∧
    (5 ≤ closes.length → nondecB (closes.drop (closes.length - 5)) = false →
      nonincB (closes.drop (closes.length - 5)) = true →
      (analyze_vix closes).vix_trend = some "falling" ∧
      (analyze_vix closes).trading_implications =
        (vixLevelInfo (closes.getLast hne)).2.2 ++ [vixFallingImplication]) ∧
    (5 ≤ closes.length → nondecB (closes.drop (closes.length - 5)) = false →
      nonincB (closes.drop (closes.length - 5)) = false →
      (analyze_vix closes).vix_trend = some "neutral" ∧
      (analyze_vix closes).trading_implications =
        (vixLevelInfo (closes.getLast hne)).2.2) ∧
    (5 ≤ closes.length →
      (∀ a ∈ closes.drop (closes.length - 5), ∀ b ∈ closes.drop (closes.length - 5),
        a = b) →
      (analyze_vix closes).vix_trend = some "rising") := by
  obtain ⟨c, rest, rfl⟩ : ∃ c rest, closes = c :: rest := by
    cases closes with
    | nil => exact absurd rfl hne
    | cons c rest => exact ⟨c, rest, rfl⟩
  refine ⟨fun hlen => ?_, fun hlen hnd => ?_, fun hlen hnd hni => ?_,
          fun hlen hnd hni => ?_, fun hlen hall => ?_⟩
  · have h5 : ¬ 4 ≤ rest.length := by
      have := hlen; simp at this; omega
    simp [analyze_vix, h5]
  · have h5 : 4 ≤ rest.length := by have := hlen; simp at this; omega
    have hnd2 : nondecB (List.drop (rest.length - 4) (c :: rest)) = true := by
      simpa using hnd
    simp [analyze_vix, h5, hnd2]
  · have h5 : 4 ≤ rest.length := by have := hlen; simp at this; omega
    have hnd2 : nondecB (List.drop (rest.length - 4) (c :: rest)) = false := by
      simpa using hnd
    have hni2 : nonincB (List.drop (rest.length - 4) (c :: rest)) = true := by
      simpa using hni
    simp [analyze_vix, h5, hnd2, hni2]
  · have h5 : 4 ≤ rest.length := by have := hlen; simp at this; omega
    have hnd2 : nondecB (List.drop (rest.length - 4) (c :: rest)) = false := by
      simpa using hnd
    have hni2 : nonincB (List.drop (rest.length - 4) (c :: rest)) = false := by
      simpa using hni
    simp [analyze_vix, h5, hnd2, hni2]
  · have h5 : 4 ≤ rest.length := by have := hlen; simp at this; omega
    have hnd := nondecB_of_all_eq _ hall
    have hnd2 : nondecB (List.drop (rest.length - 4) (c :: rest)) = true := by
      simpa using hnd
    simp [analyze_vix, h5, hnd2]

/-- C7 witness: five equal closes are rising; a 2-bar series is neutral; a
non-monotonic 5-bar run is neutral; a strictly falling run is falling. -/
theorem c7_vix_trend_witness :
    (analyze_vix [20, 20, 20, 20, 20]).vix_trend = some "rising" ∧
    (analyze_vix [14, 13]).vix_trend = some "neutral" ∧
    (analyze_vix [10, 11, 12, 9, 13]).vix_trend = some "neutral" ∧
    (analyze_vix [14, 13, 12, 11, 10]).vix_trend = some "falling" :=
  ⟨(c7_vix_trend [20, 20, 20, 20, 20] (by decide)).2.2.2.2 (by decide) (by decide),
   ((c7_vix_trend [14, 13] (by decide)).1 (by decide)).1,
   ((c7_vix_trend [10, 11, 12, 9, 13] (by decide)).2.2.2.1 (by decide) (by decide)
     (by decide)).1,
   ((c7_vix_trend [14, 13, 12, 11, 10] (by decide)).2.2.1 (by decide) (by decide)
     (by decide)).1⟩

/-- A rolling window whose entries are all finite averages to a value. -/
theorem pfWindowMean_ofFn_val (w : ℕ) (f : Fin w → PF) (g : Fin w → ℚ)
    (hf : ∀ k, f k = PF.val (g k)) :
    pfWindowMean w (List.ofFn f) = PF.val ((List.ofFn g).sum / (w : ℚ)) := by
  have h1 : List.ofFn f = List.ofFn fun k => PF.val (g k) :=
    congrArg _ (funext hf)
  have hall : (List.ofFn fun k => PF.val (g k)).all PF.isVal = true := by
    rw [List.all_eq_true]
    intro x hx
    rw [List.mem_ofFn] at hx
    obtain ⟨k, rfl⟩ := hx
    rfl
  rw [h1, pfWindowMean, if_pos hall, List.map_ofFn]
  exact congrArg (fun l => PF.val (List.sum l / (w : ℚ)))
    (congrArg List.ofFn (funext fun k => rfl))

/-- A rolling window containing a NaN averages to NaN. -/
theorem pfWindowMean_nan_of_mem (w : ℕ) (win : List PF) (hmem : PF.nan ∈ win) :
    pfWindowMean w win = PF.nan := by
  have h : ¬ (win.all PF.isVal = true) := fun hall => by
    simpa [PF.isVal] using List.all_eq_true.mp hall PF.nan hmem
  rw [pfWindowMean, if_neg h]

/-- Entry `i` of a rolling mean over a mapped diff column, in the defined
region `p ≤ i < n`: the mean of the mapped deltas of the window ending at
bar `i`. -/
theorem rollingMean_diff_entry (cs : List ℚ) (p i : ℕ) (fn : PF → PF) (g : ℚ → ℚ)
    (hfn : ∀ q, fn (PF.val q) = PF.val (g q))
    (hi : i < cs.length) (hpi : p ≤ i) :
    (rollingMean p ((diffCol cs).map fn)).getD i PF.nan =
      PF.val ((List.ofFn fun k : Fin p =>
        g (cs.getD (i + 1 - p + k.val) 0 - cs.getD (i - p + k.val) 0)).sum / (p : ℚ)) := by
  have hlen : ((diffCol cs).map fn).length = cs.length := by simp [diffCol]
  have hrl : (rollingMean p ((diffCol cs).map fn)).length = cs.length := by
    simp [rollingMean, hlen]
  have hb : i < (rollingMean p ((diffCol cs).map fn)).length := by
    rw [hrl]; exact hi
  rw [List.getD_eq_getElem _ _ hb]
  simp only [rollingMean, List.getElem_ofFn]
  rw [dif_neg (by omega : ¬ (i + 1 < p))]
  refine pfWindowMean_ofFn_val p _ _ (fun k => ?_)
  have hk := k.isLt
  rw [List.get_eq_getElem, List.getElem_map]
  simp only [diffCol, List.getElem_ofFn]
  rw [dif_neg (by omega : ¬ (i + 1 - p + k.val = 0))]
  rw [hfn]
  rw [List.getD_eq_getElem _ _ (show i + 1 - p + k.val < cs.length by omega),
      List.getD_eq_getElem _ _ (show i - p + k.val < cs.length by omega)]
  simp only [List.get_eq_getElem]
  have he : i + 1 - p + k.val - 1 = i - p + k.val := by omega
  simp only [he]

/-- Entry `i` of a rolling mean over a mapped diff column is NaN throughout
the first `p` bars: for `i + 1 < p` the window is incomplete, and at
`i + 1 = p` the window still contains the NaN that `diff()` put at bar 0. -/
theorem rollingMean_diff_nan (cs : List ℚ) (p i : ℕ) (fn : PF → PF)
    (hfn : fn PF.nan = PF.nan) (hi : i < cs.length) (hip : i < p) :
    (rollingMean p ((diffCol cs).map fn)).getD i PF.nan = PF.nan := by
  have hlen : ((diffCol cs).map fn).length = cs.length := by simp [diffCol]
  have hrl : (rollingMean p ((diffCol cs).map fn)).length = cs.length := by
    simp [rollingMean, hlen]
  have hb : i < (rollingMean p ((diffCol cs).map fn)).length := by
    rw [hrl]; exact hi
  rw [List.getD_eq_getElem _ _ hb]
  simp only [rollingMean, List.getElem_ofFn]
  by_cases hc : i + 1 < p
  · rw [dif_pos hc]
  · rw [dif_neg hc]
    refine pfWindowMean_nan_of_mem p _
      ((List.mem_ofFn _ _).mpr ⟨⟨0, by omega⟩, ?_⟩)
    simp only [List.get_eq_getElem, List.getElem_map, diffCol, List.getElem_ofFn]
    rw [dif_pos (by omega : i + 1 - p + 0 = 0)]
    exact hfn

/-- C3 counterexample: with period 2 on the series [1, 2, 4], the bar at
0-based index 1 — the period-th bar, which the claim says already has an
RSI value — has NaN RSI, because the rolling window of the first `period`
bars contains the NaN that `diff()` placed at bar 0. -/
theorem c3_counterexample :
    ((calculate_rsi ⟨[1, 2, 4], none, none, none, none⟩ 2).1.rsi.getD []).getD 1 PF.nan =
      PF.nan ∧
    ((calculate_rsi ⟨[1, 2, 4], none, none, none, none⟩ 2).1.rsi.getD []).length = 3 := by
  decide

/-- C3: the RSI column of `calculate_rsi` has one entry per bar; each of
the first `period` bars (0-based indices below `period`) has no RSI value
(NaN); and every bar from index `period` on carries exactly the
specification's RSI — deltas of consecutive closes over the window,
average gain and loss as the simple mean over `period` deltas, and
`100 - 100/(1 + RS)` with the value 100 when only the average loss is 0
and no value when both averages are 0. -/
theorem c3_rsi_pipeline (df : DF) (period : ℕ) (hp : 1 ≤ period) :
    ((calculate_rsi df period).1.rsi.getD []).length = df.close.length ∧
    (∀ i, i < df.close.length → i < period →
      ((calculate_rsi df period).1.rsi.getD []).getD i PF.nan = PF.nan) ∧
    (∀ i, i < df.close.length → period ≤ i →
      ((calculate_rsi df period).1.rsi.getD []).getD i PF.nan =
        rsiSpecAt df.close period i) := by
  have hG : (gainsCol (diffCol df.close)).length = df.close.length := by
    simp [gainsCol, diffCol]
  have hL : (lossesCol (diffCol df.close)).length = df.close.length := by
    simp [lossesCol, diffCol]
  have hAG : (rollingMean period (gainsCol (diffCol df.close))).length =
      df.close.length := by
    simp [rollingMean, hG]
  have hAL : (rollingMean period (lossesCol (diffCol df.close))).length =
      df.close.length := by
    simp [rollingMean, hL]
  have hcol : (calculate_rsi df period).1.rsi.getD [] =
      (List.zipWith pfDiv (rollingMean period (gainsCol (diffCol df.close)))
        (rollingMean period (lossesCol (diffCol df.close)))).map
        (fun r => pfSub (PF.val 100) (pfDiv (PF.val 100) (pfAdd (PF.val 1) r))) := rfl
  have hzlen : (List.zipWith pfDiv (rollingMean period (gainsCol (diffCol df.close)))
      (rollingMean period (lossesCol (diffCol df.close)))).length = df.close.length := by
    rw [List.length_zipWith, hAG, hAL, Nat.min_self]
  have hlen : ((calculate_rsi df period).1.rsi.getD []).length = df.close.length := by
    rw [hcol, List.length_map, hzlen]
  have hent : ∀ i, i < df.close.length →
      ((calculate_rsi df period).1.rsi.getD []).getD i PF.nan =
        pfSub (PF.val 100) (pfDiv (PF.val 100) (pfAdd (PF.val 1)
          (pfDiv ((rollingMean period (gainsCol (diffCol df.close))).getD i PF.nan)
                 ((rollingMean period (lossesCol (diffCol df.close))).getD i PF.nan)))) := by
    intro i hi
    rw [hcol]
    have hb1 : i < (List.map
        (fun r => pfSub (PF.val 100) (pfDiv (PF.val 100) (pfAdd (PF.val 1) r)))
        (List.zipWith pfDiv (rollingMean period (gainsCol (diffCol df.close)))
          (rollingMean period (lossesCol (diffCol df.close))))).length := by
      rw [List.length_map, hzlen]; exact hi
    rw [List.getD_eq_getElem _ _ hb1]
    rw [List.getElem_map, List.getElem_zipWith,
        ← List.getD_eq_getElem (rollingMean period (gainsCol (diffCol df.close)))
          PF.nan (by rw [hAG]; exact hi),
        ← List.getD_eq_getElem (rollingMean period (lossesCol (diffCol df.close)))
          PF.nan (by rw [hAL]; exact hi)]
  refine ⟨hlen, ?_, ?_⟩
  · intro i hi hip
    rw [hent i hi]
    simp only [gainsCol, lossesCol]
    rw [rollingMean_diff_nan df.close period i _ rfl hi hip,
        rollingMean_diff_nan df.close period i _ rfl hi hip]
    rfl
  · intro i hi hpi
    rw [hent i hi]
    simp only [gainsCol, lossesCol]
    rw [rollingMean_diff_entry df.close period i _ (fun q => max q 0)
          (fun q => rfl) hi hpi,
        rollingMean_diff_entry df.close period i _ (fun q => max (-q) 0)
          (fun q => rfl) hi hpi]
    simp only [rsiSpecAt]
    have hp0 : (0 : ℚ) < (period : ℚ) := by
      exact_mod_cast Nat.pos_of_ne_zero (by omega)
    have hSg0 : 0 ≤ (List.ofFn fun k : Fin period =>
        max (df.close.getD (i + 1 - period + k.val) 0 -
          df.close.getD (i - period + k.val) 0) 0).sum := by
      apply List.sum_nonneg
      intro x hx
      rw [List.mem_ofFn] at hx
      obtain ⟨k, rfl⟩ := hx
      exact le_max_right _ _
    have hSl0 : 0 ≤ (List.ofFn fun k : Fin period =>
        max (-(df.close.getD (i + 1 - period + k.val) 0 -
          df.close.getD (i - period + k.val) 0)) 0).sum := by
      apply List.sum_nonneg
      intro x hx
      rw [List.mem_ofFn] at hx
      obtain ⟨k, rfl⟩ := hx
      exact le_max_right _ _
    set Sg := (List.ofFn fun k : Fin period =>
        max (df.close.getD (i + 1 - period + k.val) 0 -
          df.close.getD (i - period + k.val) 0) 0).sum with hSgdef
    set Sl := (List.ofFn fun k : Fin period =>
        max (-(df.close.getD (i + 1 - period + k.val) 0 -
          df.close.getD (i - period + k.val) 0)) 0).sum with hSldef
    by_cases hLz : Sl / (period : ℚ) = 0
    · by_cases hGz : Sg / (period : ℚ) = 0
      · simp only [pfDiv, if_pos hLz, if_pos hGz]
        rfl
      · have ha : 0 < Sg / (period : ℚ) :=
          lt_of_le_of_ne (div_nonneg hSg0 hp0.le) (Ne.symm hGz)
        simp only [pfDiv, if_pos hLz, if_neg hGz, if_pos ha]
        show pfSub (PF.val 100) (pfDiv (PF.val 100) (pfAdd (PF.val 1) PF.inf)) = _
        simp only [pfAdd, pfDiv, pfSub, pfNeg]
        norm_num
    · have hb : 0 < Sl / (period : ℚ) :=
        lt_of_le_of_ne (div_nonneg hSl0 hp0.le) (Ne.symm hLz)
      have hd : (0 : ℚ) < 1 + (Sg / (period : ℚ)) / (Sl / (period : ℚ)) := by
        have := div_nonneg (div_nonneg hSg0 hp0.le) hb.le
        linarith
      simp only [pfDiv, if_neg hLz]
      show pfSub (PF.val 100) (pfDiv (PF.val 100)
        (pfAdd (PF.val 1) (PF.val (Sg / (period : ℚ) / (Sl / (period : ℚ)))))) = _
      simp only [pfAdd, pfDiv, pfSub, pfNeg, if_neg (ne_of_gt hd)]
      congr 1
      rw [sub_eq_add_neg]

/-- C3 witness: on [1, 2, 4] with period 2, bar 1 (inside the first
`period` bars) has NaN RSI and bar 2 carries the specification's RSI value
for its window. -/
theorem c3_rsi_pipeline_witness :
    ((calculate_rsi ⟨[1, 2, 4], none, none, none, none⟩ 2).1.rsi.getD []).getD 1 PF.nan =
      PF.nan ∧
    ((calculate_rsi ⟨[1, 2, 4], none, none, none, none⟩ 2).1.rsi.getD []).getD 2 PF.nan =
      rsiSpecAt [1, 2, 4] 2 2 :=
  ⟨(c3_rsi_pipeline ⟨[1, 2, 4], none, none, none, none⟩ 2 (by decide)).2.1 1
      (by decide) (by decide),
   (c3_rsi_pipeline ⟨[1, 2, 4], none, none, none, none⟩ 2 (by decide)).2.2 2
      (by decide) (by decide)⟩

/-- `calculate_rsi` always produces an rsi column of the frame's length and
leaves the close column unchanged. -/
theorem calculate_rsi_col (df : DF) (p : ℕ) :
    ∃ R, (calculate_rsi df p).1.rsi = some R ∧ R.length = df.close.length ∧
      (calculate_rsi df p).1.close = df.close :=
  ⟨_, rfl, by
    simp [calculate_rsi, rollingMean, gainsCol, lossesCol, diffCol,
      List.length_zipWith], rfl⟩

/-- The augmentation block never raises when the rsi column is present, and
it touches neither the rsi column nor the close column. -/
theorem augmentFrame_exists (d : DF) (hr : d.rsi.isSome) :
    ∃ d2, augmentFrame d = Except.ok d2 ∧ d2.rsi = d.rsi ∧ d2.close = d.close := by
  obtain ⟨R, hR⟩ := Option.isSome_iff_exists.mp hr
  by_cases h2 : 2 ≤ d.close.length
  · have h3 : augmentFrame d = Except.ok { d with signal := some (signalCol R), price_delta := some (d.close.map fun c => c - d.close.headD 0), daily_return := some (pctChange d.close) } := by
      simp [augmentFrame, h2, hR]
    exact ⟨_, h3, rfl, rfl⟩
  · exact ⟨d, by simp [augmentFrame, h2], rfl, rfl⟩

/-- When both frames carry a nonempty rsi column, the divergence analysis
reaches the classification core. -/
theorem analyze_rsi_divergence_some (a b : DF) (Ra Rb : List PF)
    (ha : a.rsi = some Ra) (hb : b.rsi = some Rb)
    (hna : Ra ≠ []) (hnb : Rb ≠ []) :
    ∃ o s, analyze_rsi_divergence a b = rsiDivergenceCore o s := by
  obtain ⟨o, ho⟩ := Option.isSome_iff_exists.mp (List.getLast?_isSome.mpr hna)
  obtain ⟨s, hs⟩ := Option.isSome_iff_exists.mp (List.getLast?_isSome.mpr hnb)
  refine ⟨o, s, ?_⟩
  simp [analyze_rsi_divergence, ha, hb, ho, hs]

/-- Every branch of the classification core records the option RSI. -/
theorem rsiDivergenceCore_option_rsi (o s : PF) :
    (rsiDivergenceCore o s).option_rsi = some o := by
  simp only [rsiDivergenceCore]
  split_ifs <;> rfl

/-- On a nonempty series the VIX report carries a current value. -/
theorem analyze_vix_current (c : ℚ) (rest : List ℚ) :
    (analyze_vix (c :: rest)).current_vix = some ((c :: rest).getLast (by simp)) := by
  simp only [analyze_vix]
  split_ifs <;> rfl

/-- C2 counterexample: with the option fetch and the stock fetch both
succeeding (2-bar frames) and the VIX fetch succeeding with an EMPTY
series, the whole run returns the all-absent result — so option/stock
fetch failure is not the only all-absent condition. -/
theorem c2_counterexample :
    analyze_stock_and_option (some ⟨[1, 2], none, none, none, none⟩)
      (some ⟨[3, 4], none, none, none, none⟩) (some []) none = allNoneResult := by
  decide

/-- C2 amended: assuming the option fetch never yields an empty frame
(`get_option_historical_data` returns `None` for an empty aggregate list),
the run returns the all-absent tuple exactly when the option fetch failed,
the stock fetch failed, the stock fetch yielded an empty frame, or the VIX
fetch yielded an empty frame; and when the option and stock fetches
succeed with nonempty frames and only the VIX fetch fails (returns
`None`), the run proceeds with the option frame, stock frame and
divergence report present and only the VIX report absent. -/
theorem c2_orchestrator_abort (optRes stockRes : Option DF)
    (vixRes : Option (List ℚ)) (ivRes : Option ℚ)
    (hopt : ∀ df, optRes = some df → df.close ≠ []) :
    (analyze_stock_and_option optRes stockRes vixRes ivRes = allNoneResult ↔
      (optRes = none ∨ stockRes = none ∨
        (∃ df, stockRes = some df ∧ df.close = []) ∨ vixRes = some [])) ∧
    (∀ odf sdf, optRes = some odf → stockRes = some sdf → sdf.close ≠ [] →
      vixRes = none →
      (analyze_stock_and_option optRes stockRes vixRes ivRes).option_df.isSome ∧
      (analyze_stock_and_option optRes stockRes vixRes ivRes).stock_df.isSome ∧
      (analyze_stock_and_option optRes stockRes vixRes ivRes).divergence.isSome ∧
      (analyze_stock_and_option optRes stockRes vixRes ivRes).vix = none) := by
  rcases optRes with _ | odf
  · constructor
    · simp [analyze_stock_and_option, orchestratorBody]
    · intro odf sdf h
      exact absurd h (by simp)
  · rcases stockRes with _ | sdf
    · constructor
      · simp [analyze_stock_and_option, orchestratorBody, allNoneResult]
      · intro odf2 sdf2 ho hs
        exact absurd hs (by simp)
    · by_cases hse : sdf.close = []
      · constructor
        · simp [analyze_stock_and_option, orchestratorBody, hse]
        · intro odf2 sdf2 ho hs hne hvix
          obtain rfl : sdf = sdf2 := Option.some.inj hs
          exact absurd hse hne
      · -- both fetches succeeded with usable frames: compute the body
        have hoc : odf.close ≠ [] := hopt odf rfl
        obtain ⟨Ro, hRo, hRolen, hclo⟩ := calculate_rsi_col odf 14
        obtain ⟨Rs, hRs, hRslen, hcls⟩ := calculate_rsi_col sdf 14
        obtain ⟨odf2, haug1, hr1, hc1⟩ :=
          augmentFrame_exists (calculate_rsi odf 14).1 (by rw [hRo]; rfl)
        obtain ⟨sdf2, haug2, hr2, hc2⟩ :=
          augmentFrame_exists (calculate_rsi sdf 14).1 (by rw [hRs]; rfl)
        have hono : Ro ≠ [] := by
          intro h
          rw [h] at hRolen
          exact hoc (List.length_eq_zero.mp hRolen.symm)
        have hsno : Rs ≠ [] := by
          intro h
          rw [h] at hRslen
          exact hse (List.length_eq_zero.mp hRslen.symm)
        obtain ⟨o, s, hdiv⟩ := analyze_rsi_divergence_some odf2 sdf2 Ro Rs
          (by rw [hr1, hRo]) (by rw [hr2, hRs]) hono hsno
        have hdivne : ¬ ((analyze_rsi_divergence odf2 sdf2).option_rsi = none) := by
          rw [hdiv, rsiDivergenceCore_option_rsi]
          simp
        rcases vixRes with _ | closes
        · -- VIX fetch failed (None): tolerated
          have hres : analyze_stock_and_option (some odf) (some sdf) none ivRes =
              ⟨some (match ivRes with
                     | none => ((none : Option SkewReport), odf2)
                     | some iv =>
                       let rv := calculate_realized_volatility_sq odf2 252 true
                       (some (analyze_volatility_skew (PF.val iv) rv.1), rv.2)).2,
                some sdf2,
                some (analyze_rsi_divergence odf2 sdf2),
                (match ivRes with
                 | none => ((none : Option SkewReport), odf2)
                 | some iv =>
                   let rv := calculate_realized_volatility_sq odf2 252 true
                   (some (analyze_volatility_skew (PF.val iv) rv.1), rv.2)).1,
                none⟩ := by
            simp only [analyze_stock_and_option, orchestratorBody, if_neg hse,
              haug1, haug2, if_neg hdivne]
          constructor
          · rw [hres]
            constructor
            · intro h
              exact absurd (congrArg OrchResult.option_df h) (by simp [allNoneResult])
            · intro h
              rcases h with h | h | ⟨df, hdf, _⟩ | h <;> simp_all
          · intro odf3 sdf3 ho hs hne hvix
            rw [hres]
            exact ⟨rfl, rfl, rfl, rfl⟩
        · rcases closes with _ | ⟨c, cr⟩
          · -- VIX fetch succeeded with an empty frame: the run aborts
            have hemp : (analyze_vix ([] : List ℚ)).current_vix = none := rfl
            have hres : analyze_stock_and_option (some odf) (some sdf)
                (some []) ivRes = allNoneResult := by
              simp only [analyze_stock_and_option, orchestratorBody, if_neg hse,
                haug1, haug2, if_neg hdivne, if_pos hemp]
            constructor
            · rw [hres]
              simp
            · intro odf3 sdf3 ho hs hne hvix
              exact absurd hvix (by simp)
          · -- VIX fetch succeeded with data: full result
            have hcur : ¬ ((analyze_vix (c :: cr)).current_vix = none) := by
              rw [analyze_vix_current]
              simp
            have hres : analyze_stock_and_option (some odf) (some sdf)
                (some (c :: cr)) ivRes =
                ⟨some (match ivRes with
                       | none => ((none : Option SkewReport), odf2)
                       | some iv =>
                         let rv := calculate_realized_volatility_sq odf2 252 true
                         (some (analyze_volatility_skew (PF.val iv) rv.1), rv.2)).2,
                  some sdf2,
                  some (analyze_rsi_divergence odf2 sdf2),
                  (match ivRes with
                   | none => ((none : Option SkewReport), odf2)
                   | some iv =>
                     let rv := calculate_realized_volatility_sq odf2 252 true
                     (some (analyze_volatility_skew (PF.val iv) rv.1), rv.2)).1,
                  some (analyze_vix (c :: cr))⟩ := by
              simp only [analyze_stock_and_option, orchestratorBody, if_neg hse,
                haug1, haug2, if_neg hdivne, if_neg hcur]
            constructor
            · rw [hres]
              constructor
              · intro h
                exact absurd (congrArg OrchResult.option_df h) (by simp [allNoneResult])
              · intro h
                rcases h with h | h | ⟨df, hdf, hdfe⟩ | h <;> simp_all
            · intro odf3 sdf3 ho hs hne hvix
              exact absurd hvix (by simp)

/-- C2 witness: with both price fetches succeeding and the VIX fetch
failing (None), the run keeps the option frame and divergence report and
only the VIX report is absent; and a failed stock fetch yields the
all-absent result. -/
theorem c2_orchestrator_abort_witness :
    ((analyze_stock_and_option (some ⟨[1, 2], none, none, none, none⟩)
        (some ⟨[3, 4], none, none, none, none⟩) none none).option_df.isSome ∧
      (analyze_stock_and_option (some ⟨[1, 2], none, none, none, none⟩)
        (some ⟨[3, 4], none, none, none, none⟩) none none).vix = none) ∧
    analyze_stock_and_option (some ⟨[1, 2], none, none, none, none⟩) none
      (some [10]) none = allNoneResult := by
  constructor
  · have h := (c2_orchestrator_abort (some ⟨[1, 2], none, none, none, none⟩)
        (some ⟨[3, 4], none, none, none, none⟩) none none
        (by intro df h; injection h with h2; rw [← h2]; decide)).2
        ⟨[1, 2], none, none, none, none⟩ ⟨[3, 4], none, none, none, none⟩
        rfl rfl (by decide) rfl
    exact ⟨h.1, h.2.2.2⟩
  · exact (c2_orchestrator_abort (some ⟨[1, 2], none, none, none, none⟩) none
      (some [10]) none
      (by intro df h; injection h with h2; rw [← h2]; decide)).1.mpr
      (Or.inr (Or.inl rfl))
